import Mathlib

/-!
Virtual-Classroom backend: authentication subsystem.

A shallow embedding of `backend/controllers/authController.js` and
`backend/middleware/authMiddleware.js`.

* Handlers are pure functions from their inputs (request, store, environment,
  results of the outgoing HTTP calls, random bytes, clock) to an `Outcome`:
  the response that was sent, the store afterwards and the log of effects.
* The libraries the handlers call (zod, bcryptjs, jsonwebtoken, Prisma, axios)
  are not part of the repository.  zod's string/enum/object parsing is written
  out as far as the two schemas use it; bcrypt and the JWT wire format are
  parameters; the Prisma user table is a list of rows with a unique email column.
-/

namespace VirtualClassroom

deriving instance DecidableEq for Except

/-! ## JavaScript strings and values -/

/-- Number of UTF-16 code units of a string, which is what `.length` returns in JavaScript. -/
def jsLength (s : String) : Nat :=
  (s.data.map (fun c => if c.toNat < 65536 then 1 else 2)).sum

/-- JavaScript truthiness of a string: only the empty string is falsy. -/
def truthy (s : String) : Bool := s != ""

/-- A JavaScript value found under a key of the request body.  Arrays and nested
objects are kept opaque: the schemas only look at their type. -/
inductive JsVal where
  | undefined
  | null
  | boolean (b : Bool)
  | number (n : Int)
  | str (s : String)
  | array
  | object
  deriving DecidableEq, Repr

/-- The request body `req.body` as handed to `safeParse`. -/
inductive RawBody where
  | undefined
  | null
  | boolean (b : Bool)
  | number (n : Int)
  | str (s : String)
  | array
  | object (fields : List (String × JsVal))
  deriving DecidableEq, Repr

/-- zod's `getParsedType` on a field value. -/
def JsVal.parsedType : JsVal → String
  | .undefined => "undefined"
  | .null => "null"
  | .boolean _ => "boolean"
  | .number _ => "number"
  | .str _ => "string"
  | .array => "array"
  | .object => "object"

/-- zod's `getParsedType` on the body. -/
def RawBody.parsedType : RawBody → String
  | .undefined => "undefined"
  | .null => "null"
  | .boolean _ => "boolean"
  | .number _ => "number"
  | .str _ => "string"
  | .array => "array"
  | .object _ => "object"

/-- Property access `body[key]`: a missing key reads as `undefined`. -/
def getField (fields : List (String × JsVal)) (key : String) : JsVal :=
  (fields.lookup key).getD JsVal.undefined

/-! ## zod: issues, string checks, enum -/

/-- One entry of `validationResult.error.errors`. -/
structure Issue where
  path : List String
  message : String
  deriving DecidableEq, Repr

/-- zod's default message for an `invalid_type` issue. -/
def invalidTypeMessage (expected received : String) : String :=
  if received = "undefined" then "Required"
  else "Expected " ++ expected ++ ", received " ++ received

/-- A refinement of `z.string()`: `none` when the check passes, else its message. -/
abbrev StringCheck := String → Option String

/-- Check `.min(n, msg)`: fails when the string has fewer than `n` code units. -/
def minCheck (n : Nat) (msg : String) : StringCheck :=
  fun s => if jsLength s < n then some msg else none

/-- Check `.email(msg)`; the email pattern of zod is the parameter `isEmail`. -/
def emailCheck (isEmail : String → Bool) (msg : String) : StringCheck :=
  fun s => if isEmail s then none else some msg

/-- Check `.regex(re, msg)` for a pattern given by its `test` function. -/
def regexCheck (test : String → Bool) (msg : String) : StringCheck :=
  fun s => if test s then none else some msg

/-- Parsing with `z.string()` followed by checks: a non-string aborts with one
`invalid_type` issue; on a string every check runs and the failing ones report
in the order they were declared. -/
def parseString (key : String) (checks : List StringCheck) : JsVal → Except (List Issue) String
  | .str s =>
    match checks.filterMap (fun chk => chk s) with
    | [] => .ok s
    | m :: ms => .error ((m :: ms).map (fun msg => ⟨[key], msg⟩))
  | v => .error [⟨[key], invalidTypeMessage "string" v.parsedType⟩]

/-- The text zod prints for the options of `z.enum(["student", "teacher", "parent"])`. -/
def roleOptions : String := "\x27student\x27 | \x27teacher\x27 | \x27parent\x27"

/-- Parsing with `z.enum(["student", "teacher", "parent"])`. -/
def parseRole (key : String) : JsVal → Except (List Issue) String
  | .str s =>
    if s = "student" ∨ s = "teacher" ∨ s = "parent" then .ok s
    else .error [⟨[key], "Invalid enum value. Expected " ++ roleOptions ++
      ", received \x27" ++ s ++ "\x27"⟩]
  | v => .error [⟨[key], invalidTypeMessage roleOptions v.parsedType⟩]

/-- Issues reported by one field. -/
def fieldIssues (r : Except (List Issue) String) : List Issue :=
  match r with
  | .ok _ => []
  | .error is => is

/-! ## The password pattern
`/^(?=.*[a-z])(?=.*[A-Z])(?=.*\d)(?=.*[@$!%*?&])[A-Za-z\d@$!%*?&]{8,}$/` -/

/-- Line terminators, the characters `.` does not match. -/
def isLineTerminator (c : Char) : Bool :=
  c.toNat = 10 || c.toNat = 13 || c.toNat = 8232 || c.toNat = 8233

/-- Class `[a-z]`. -/
def isLower (c : Char) : Bool := 97 ≤ c.toNat && c.toNat ≤ 122

/-- Class `[A-Z]`. -/
def isUpper (c : Char) : Bool := 65 ≤ c.toNat && c.toNat ≤ 90

/-- Class `\d`. -/
def isDigit (c : Char) : Bool := 48 ≤ c.toNat && c.toNat ≤ 57

/-- Class `[@$!%*?&]`. -/
def isSymbol (c : Char) : Bool :=
  c = '@' || c = '$' || c = '!' || c = '%' || c = '*' || c = '?' || c = '&'

/-- Class `[A-Za-z\d@$!%*?&]`. -/
def isAllowed (c : Char) : Bool := isUpper c || isLower c || isDigit c || isSymbol c

/-- Lookahead `(?=.*X)` at the start of the input: some character of class `X`
is reachable over characters that `.` matches. -/
def lookahead (cls : Char → Bool) : List Char → Bool
  | [] => false
  | c :: cs => cls c || (!isLineTerminator c && lookahead cls cs)

/-- The password pattern's `test`. -/
def passwordRegex (s : String) : Bool :=
  lookahead isLower s.data && lookahead isUpper s.data && lookahead isDigit s.data &&
  lookahead isSymbol s.data && s.data.all isAllowed && decide (8 ≤ s.data.length)

/-! ## The two schemas (authController.js, lines 11-22 and 81-84) -/

/-- Field `name: z.string().min(1, "Name is required")`. -/
def nameSchema : JsVal → Except (List Issue) String :=
  parseString "name" [minCheck 1 "Name is required"]

/-- Field `email: z.string().email("Invalid email format")`. -/
def emailSchema (isEmail : String → Bool) : JsVal → Except (List Issue) String :=
  parseString "email" [emailCheck isEmail "Invalid email format"]

/-- Field `password` of the registration schema. -/
def passwordSchema : JsVal → Except (List Issue) String :=
  parseString "password"
    [minCheck 8 "Password must be at least 8 characters long",
     regexCheck passwordRegex "Password must include at least one uppercase letter, one lowercase letter, one number, and one special character"]

/-- Field `role: z.enum(["student", "teacher", "parent"])`. -/
def roleSchema : JsVal → Except (List Issue) String := parseRole "role"

/-- Field `password: z.string().min(1, "Password is required")` of the login schema. -/
def loginPasswordSchema : JsVal → Except (List Issue) String :=
  parseString "password" [minCheck 1 "Password is required"]

/-- The validated registration record. -/
structure RegisterData where
  name : String
  email : String
  password : String
  role : String
  deriving DecidableEq, Repr

/-- The validated login record. -/
structure LoginData where
  email : String
  password : String
  deriving DecidableEq, Repr

/-- The call `registerSchema.safeParse(req.body)`: a body that is not an object is one
issue with an empty path; otherwise the fields are parsed in the order of the
schema and their issues are collected in that order. -/
def registerSchema (isEmail : String → Bool) : RawBody → Except (List Issue) RegisterData
  | .object fields =>
    let n := nameSchema (getField fields "name")
    let e := emailSchema isEmail (getField fields "email")
    let p := passwordSchema (getField fields "password")
    let r := roleSchema (getField fields "role")
    match n, e, p, r with
    | .ok n, .ok e, .ok p, .ok r => .ok ⟨n, e, p, r⟩
    | _, _, _, _ => .error (fieldIssues n ++ fieldIssues e ++ fieldIssues p ++ fieldIssues r)
  | b => .error [⟨[], invalidTypeMessage "object" b.parsedType⟩]

/-- The call `loginSchema.safeParse(req.body)`. -/
def loginSchema (isEmail : String → Bool) : RawBody → Except (List Issue) LoginData
  | .object fields =>
    let e := emailSchema isEmail (getField fields "email")
    let p := loginPasswordSchema (getField fields "password")
    match e, p with
    | .ok e, .ok p => .ok ⟨e, p⟩
    | _, _ => .error (fieldIssues e ++ fieldIssues p)
  | b => .error [⟨[], invalidTypeMessage "object" b.parsedType⟩]

/-! ## Users and the user table -/

/-- A row of the user table. -/
structure User where
  id : Nat
  name : String
  email : String
  password : String
  role : String
  deriving DecidableEq, Repr

/-- The argument `data` of `prisma.user.create`; `name` is `undefined` when the
provider profile has none. -/
structure UserData where
  name : Option String
  email : String
  password : String
  role : String
  deriving DecidableEq, Repr

/-- The user table: its rows and the next identifier the store hands out. -/
structure Store where
  users : List User
  nextId : Nat
  deriving DecidableEq, Repr

/-- Why an insertion was refused. -/
inductive DbError where
  | uniqueViolation
  | missingField
  deriving DecidableEq, Repr

/-- Modelled from the spec: the store's lookup by email, `prisma.user.findUnique`
(the Prisma client and its schema are not part of the sources). -/
def Store.findUnique (s : Store) (email : String) : Option User :=
  s.users.find? (fun u => u.email == email)

/-- Modelled from the spec: the store's `create` (the Prisma client and its schema are
not part of the sources).  It assigns the identifier, requires a name, and fails,
without inserting, when the email is already present at insertion time. -/
def Store.create (s : Store) (d : UserData) : Except DbError (User × Store) :=
  match d.name with
  | none => .error .missingField
  | some n =>
    if s.users.any (fun u => u.email == d.email) then .error .uniqueViolation
    else
      let u : User := ⟨s.nextId, n, d.email, d.password, d.role⟩
      .ok (u, ⟨s.users ++ [u], s.nextId + 1⟩)

/-! ## bcryptjs and jsonwebtoken -/

/-- The two bcryptjs calls the handlers make: `hash(plain, rounds)` with the salt it
draws made explicit, and `compare(plain, digest)`. -/
structure Bcrypt where
  hash : String → Nat → String → String
  compare : String → String → Bool

/-- A claim value inside a token payload. -/
inductive Claim where
  | num (n : Nat)
  | str (s : String)
  deriving DecidableEq, Repr

/-- A token payload: an object as its list of keys and values. -/
abbrev Payload := List (String × Claim)

/-- A decoded token: the payload and the signature over it. -/
structure Jws where
  payload : Payload
  signature : String
  deriving DecidableEq, Repr

/-- The wire format and the keyed signature of jsonwebtoken: the compact
serialisation with its parser, and the MAC of a payload under a key.  Parsing a
serialised token gives it back, and a serialised token (three segments joined by
dots) is never the empty string. -/
structure JwtLib where
  encode : Jws → String
  decode : String → Option Jws
  mac : String → Payload → String
  decode_encode : ∀ t, decode (encode t) = some t
  encode_nonempty : ∀ t, encode t ≠ ""

/-- Reasons for which `jwt.verify` throws. -/
inductive JwtError where
  | malformed
  | invalidSignature
  | invalidExp
  | expired
  deriving DecidableEq, Repr

/-- The call `jwt.sign(payload, key, { expiresIn })` at clock `now` (in seconds): the issue
time and the expiry are added to the payload, which is then signed. -/
def JwtLib.sign (J : JwtLib) (payload : Payload) (key : String) (ttl now : Nat) : String :=
  let full := payload ++ [("iat", Claim.num now), ("exp", Claim.num (now + ttl))]
  J.encode ⟨full, J.mac key full⟩

/-- The call `jwt.verify(token, key)` at clock `now`: the token must parse, carry the MAC
of its payload under `key`, and not have reached its `exp`. -/
def JwtLib.verify (J : JwtLib) (token key : String) (now : Nat) : Except JwtError Payload :=
  match J.decode token with
  | none => .error .malformed
  | some t =>
    if t.signature = J.mac key t.payload then
      match t.payload.lookup "exp" with
      | none => .ok t.payload
      | some (.num e) => if e ≤ now then .error .expired else .ok t.payload
      | some (.str _) => .error .invalidExp
    else .error .invalidSignature

/-- The process environment as far as the handlers read it. -/
structure Env where
  JWT_SECRET : Option String

/-- The expression `process.env.JWT_SECRET || "secret"`. -/
def jwtKey (env : Env) : String :=
  match env.JWT_SECRET with
  | some k => if truthy k then k else "secret"
  | none => "secret"

/-- The libraries a handler is linked against. -/
structure Libs where
  jwt : JwtLib
  bcrypt : Bcrypt
  isEmail : String → Bool

/-- What one run of a handler draws from outside: the environment, the clock in seconds,
the salt bcrypt picks, the hex string of `crypto.randomBytes(32)`, and the writes
other requests commit to the store between this handler's lookup and its insertion. -/
structure Run where
  env : Env
  now : Nat
  salt : String
  random : String
  interference : Store → Store

/-! ## Responses and effects -/

/-- The user object of a success response. -/
structure PublicUser where
  id : Nat
  name : String
  email : String
  role : String
  deriving DecidableEq, Repr

/-- What a handler sends: `fail s e` is `res.status(s).json({ success: false, error: e })`,
`denied s e` is `res.status(s).json({ error: e })`. -/
inductive Response where
  | fail (status : Nat) (error : String)
  | success (status : Nat) (message : String) (user : PublicUser) (token : String)
  | denied (status : Nat) (error : String)
  | redirect (url : String)
  deriving DecidableEq, Repr

/-- Status code of a response (302 for `res.redirect`). -/
def Response.status : Response → Nat
  | .fail s _ => s
  | .success s _ _ _ => s
  | .denied s _ => s
  | .redirect _ => 302

/-- The token a response hands to the client, if any. -/
def Response.token? : Response → Option String
  | .success _ _ _ t => some t
  | _ => none

/-- Whether the response is a redirect. -/
def Response.isRedirect : Response → Bool
  | .redirect _ => true
  | _ => false

/-- Calls a handler makes on the store and the token issuer. -/
inductive Effect where
  | dbFind (email : String)
  | dbCreate (data : UserData)
  | jwtSign (payload : Payload) (key : String)
  deriving DecidableEq, Repr

/-- Whether an effect touches the store. -/
def Effect.isStore : Effect → Bool
  | .dbFind _ => true
  | .dbCreate _ => true
  | .jwtSign _ _ => false

/-- Whether an effect is an insertion. -/
def Effect.isCreate : Effect → Bool
  | .dbCreate _ => true
  | _ => false

/-- Whether an effect signs a token. -/
def Effect.isSign : Effect → Bool
  | .jwtSign _ _ => true
  | _ => false

/-- Result of a handler: the response, the store afterwards, the effects in order. -/
structure Outcome where
  response : Response
  store : Store
  log : List Effect
  deriving DecidableEq, Repr

/-- The payload `{ userId: user.id, role: user.role }`. -/
def tokenPayload (u : User) : Payload :=
  [("userId", Claim.num u.id), ("role", Claim.str u.role)]

/-- The call `jwt.sign({ userId, role }, process.env.JWT_SECRET || "secret", { expiresIn: "1h" })`. -/
def issueToken (L : Libs) (R : Run) (u : User) : String :=
  L.jwt.sign (tokenPayload u) (jwtKey R.env) 3600 R.now

/-- The object `{ id, name, email, role }` of a success response. -/
def publicUser (u : User) : PublicUser := ⟨u.id, u.name, u.email, u.role⟩

/-! ## Email and password handlers (authController.js, lines 24-138) -/

/-- The handler `exports.register`. -/
def register (L : Libs) (R : Run) (s : Store) (body : RawBody) : Outcome :=
  match registerSchema L.isEmail body with
  | .error issues =>
    match issues.head? with
    | some i => ⟨.fail 400 i.message, s, []⟩
    | none => ⟨.fail 500 "Registration failed", s, []⟩
  | .ok d =>
    match s.findUnique d.email with
    | some _ => ⟨.fail 400 "User already exists", s, [.dbFind d.email]⟩
    | none =>
      let hashedPassword := L.bcrypt.hash d.password 10 R.salt
      let data : UserData := ⟨some d.name, d.email, hashedPassword, d.role⟩
      let s1 := R.interference s
      match s1.create data with
      | .error _ => ⟨.fail 500 "Registration failed", s1, [.dbFind d.email, .dbCreate data]⟩
      | .ok (user, s2) =>
        ⟨.success 201 "User registered successfully" (publicUser user) (issueToken L R user), s2,
          [.dbFind d.email, .dbCreate data, .jwtSign (tokenPayload user) (jwtKey R.env)]⟩

/-- The handler `exports.login`. -/
def login (L : Libs) (R : Run) (s : Store) (body : RawBody) : Outcome :=
  match loginSchema L.isEmail body with
  | .error issues =>
    match issues.head? with
    | some i => ⟨.fail 400 i.message, s, []⟩
    | none => ⟨.fail 500 "Login failed", s, []⟩
  | .ok d =>
    match s.findUnique d.email with
    | none => ⟨.fail 400 "User not found", s, [.dbFind d.email]⟩
    | some user =>
      if L.bcrypt.compare d.password user.password then
        ⟨.success 200 "Login successful" (publicUser user) (issueToken L R user), s,
          [.dbFind d.email, .jwtSign (tokenPayload user) (jwtKey R.env)]⟩
      else ⟨.fail 400 "Invalid credentials", s, [.dbFind d.email]⟩

/-! ## OAuth callbacks (authController.js, lines 162-234 and 249-336) -/

/-- The fields of Google's userinfo response the handler reads. -/
structure GoogleProfile where
  name : Option String
  email : Option String
  deriving DecidableEq, Repr

/-- The outgoing calls of the Google callback: the code exchange, giving the access
token, and the userinfo request made with it.  An `error` is a call that throws. -/
structure GoogleApi where
  token : String → Except Unit String
  userinfo : String → Except Unit GoogleProfile

/-- The fields of GitHub's user response the handler reads. -/
structure GithubUser where
  name : Option String
  login : String
  deriving DecidableEq, Repr

/-- One entry of GitHub's email list. -/
structure EmailEntry where
  email : String
  primary : Bool
  verified : Bool
  deriving DecidableEq, Repr

/-- The outgoing calls of the GitHub callback: the code exchange, the user request and
the email list request.  An `error` is a call that throws. -/
structure GithubApi where
  accessToken : String → Except Unit String
  user : String → Except Unit GithubUser
  emails : String → Except Unit (List EmailEntry)

/-- The lookup followed by the insertion when absent (lines 197-224 and 299-329), then
the token and the redirect; `failure` is the message of the handler's `catch`. -/
def resolveUser (L : Libs) (R : Run) (s : Store) (failure : String) (email : String)
    (name : Option String) : Outcome :=
  match s.findUnique email with
  | some user =>
    ⟨.redirect ("http://localhost:3000?token=" ++ issueToken L R user), s,
      [.dbFind email, .jwtSign (tokenPayload user) (jwtKey R.env)]⟩
  | none =>
    let data : UserData := ⟨name, email, L.bcrypt.hash R.random 10 R.salt, "student"⟩
    let s1 := R.interference s
    match s1.create data with
    | .error _ => ⟨.fail 500 failure, s1, [.dbFind email, .dbCreate data]⟩
    | .ok (user, s2) =>
      ⟨.redirect ("http://localhost:3000?token=" ++ issueToken L R user), s2,
        [.dbFind email, .dbCreate data, .jwtSign (tokenPayload user) (jwtKey R.env)]⟩

/-- Whether `req.query.code` is truthy. -/
def codeOf (code : Option String) : Option String :=
  match code with
  | some c => if truthy c then some c else none
  | none => none

/-- The handler `exports.googleAuthCallback`.  A profile without an email makes the
lookup throw, which the handler catches. -/
def googleAuthCallback (L : Libs) (R : Run) (api : GoogleApi) (s : Store)
    (code : Option String) : Outcome :=
  match codeOf code with
  | none => ⟨.fail 400 "Authorization code missing", s, []⟩
  | some c =>
    match api.token c with
    | .error _ => ⟨.fail 500 "Google authentication failed", s, []⟩
    | .ok accessToken =>
      match api.userinfo accessToken with
      | .error _ => ⟨.fail 500 "Google authentication failed", s, []⟩
      | .ok userData =>
        match userData.email with
        | none => ⟨.fail 500 "Google authentication failed", s, []⟩
        | some email => resolveUser L R s "Google authentication failed" email userData.name

/-- The expression `userData.name || userData.login`. -/
def githubName (userData : GithubUser) : String :=
  match userData.name with
  | some n => if truthy n then n else userData.login
  | none => userData.login

/-- The expression `emails.find((email) => email.primary && email.verified)?.email`. -/
def primaryEmail (emails : List EmailEntry) : Option String :=
  (emails.find? (fun e => e.primary && e.verified)).map (fun e => e.email)

/-- The handler `exports.githubAuthCallback`. -/
def githubAuthCallback (L : Libs) (R : Run) (api : GithubApi) (s : Store)
    (code : Option String) : Outcome :=
  match codeOf code with
  | none => ⟨.fail 400 "Authorization code missing", s, []⟩
  | some c =>
    match api.accessToken c with
    | .error _ => ⟨.fail 500 "GitHub authentication failed", s, []⟩
    | .ok accessToken =>
      match api.user accessToken with
      | .error _ => ⟨.fail 500 "GitHub authentication failed", s, []⟩
      | .ok userData =>
        match api.emails accessToken with
        | .error _ => ⟨.fail 500 "GitHub authentication failed", s, []⟩
        | .ok emails =>
          match primaryEmail emails with
          | none =>
            ⟨.fail 400 "Email not found. Please ensure your GitHub email is public.", s, []⟩
          | some email =>
            if truthy email then
              resolveUser L R s "GitHub authentication failed" email (some (githubName userData))
            else
              ⟨.fail 400 "Email not found. Please ensure your GitHub email is public.", s, []⟩

/-! ## Auth middleware (authMiddleware.js) -/

/-- The call `text.replace(pat, "")` with a string pattern: the first occurrence of `pat`
is removed. -/
def removeFirst (pat : List Char) : List Char → List Char
  | [] => []
  | c :: cs =>
    if pat.isPrefixOf (c :: cs) then (c :: cs).drop pat.length
    else c :: removeFirst pat cs

/-- The expression `req.header("Authorization")?.replace("Bearer ", "")`. -/
def bearerToken (authorization : Option String) : Option String :=
  authorization.map (fun h => String.mk (removeFirst "Bearer ".data h.data))

/-- What the middleware did: the response it sent, if any, whether it called `next`, and
the value it stored in `req.user`. -/
structure MwOutcome where
  response : Option Response
  nextCalled : Bool
  user : Option Payload
  deriving DecidableEq, Repr

/-- The middleware `module.exports` at clock `now`, on the value of the request's
`Authorization` header. -/
def authMiddleware (J : JwtLib) (env : Env) (now : Nat) (authorization : Option String) :
    MwOutcome :=
  match bearerToken authorization with
  | none => ⟨some (.denied 401 "Access denied. No token provided."), false, none⟩
  | some token =>
    if truthy token then
      match J.verify token (jwtKey env) now with
      | .ok decoded => ⟨none, true, some decoded⟩
      | .error _ => ⟨some (.denied 400 "Invalid token"), false, none⟩
    else ⟨some (.denied 401 "Access denied. No token provided."), false, none⟩


/-! ## Stand-ins for the libraries, and sample inputs, used in the examples -/

/-- Code points of a text. -/
def textCode (s : String) : List Nat := s.data.map Char.toNat

/-- Text of a list of code points. -/
def textOfCode (l : List Nat) : String := String.mk (l.map Char.ofNat)

/-- A claim value as a sum of a number and a list of code points. -/
def claimCode : Claim → Nat ⊕ List Nat
  | .num n => .inl n
  | .str s => .inr (textCode s)

/-- Inverse of `claimCode`. -/
def claimOfCode : Nat ⊕ List Nat → Claim
  | .inl n => .num n
  | .inr l => .str (textOfCode l)

/-- A decoded token as numbers only. -/
def jwsCode (t : Jws) : List (List Nat × (Nat ⊕ List Nat)) × List Nat :=
  (t.payload.map (fun kv => (textCode kv.1, claimCode kv.2)), textCode t.signature)

/-- Inverse of `jwsCode`. -/
def jwsOfCode (c : List (List Nat × (Nat ⊕ List Nat)) × List Nat) : Jws :=
  ⟨c.1.map (fun kv => (textOfCode kv.1, claimOfCode kv.2)), textOfCode c.2⟩

/-- A wire format for the examples: a token is a run of dots whose length numbers the
decoded token; the signature of a payload under a key is the key. -/
def refJwt : JwtLib where
  encode t := String.mk (List.replicate (Encodable.encode (jwsCode t) + 1) '.')
  decode s :=
    if s.data.all (fun c => c == '.') then
      match s.data.length with
      | 0 => none
      | n + 1 => (Encodable.decode n).map jwsOfCode
    else none
  mac key _ := key
  decode_encode := by
    intro t
    have htext : ∀ s : String, textOfCode (textCode s) = s := by
      intro s
      simp [textOfCode, textCode, List.map_map, Function.comp_def]
    have hclaim : ∀ c : Claim, claimOfCode (claimCode c) = c := by
      intro c
      cases c <;> simp [claimCode, claimOfCode, htext]
    have hjws : jwsOfCode (jwsCode t) = t := by
      cases t with
      | mk p sig =>
        simp [jwsCode, jwsOfCode, List.map_map, Function.comp_def, htext, hclaim]
    have h : Encodable.decode (Encodable.encode (jwsCode t)) = some (jwsCode t) :=
      Encodable.encodek _
    simp only [List.length_replicate, List.all_replicate, beq_self_eq_true,
      Bool.or_true, if_true, h, Option.map_some', hjws, ite_self]
  encode_nonempty := by
    intro t h
    have hlen := congrArg String.length h
    simp [String.length] at hlen

/-- A hash for the examples: unsalted, the plaintext behind a fixed tag. -/
def refBcrypt : Bcrypt where
  hash plain _ _ := "hashed:" ++ plain
  compare plain digest := digest == "hashed:" ++ plain

/-- An email pattern for the examples: the text contains an `@`. -/
def refIsEmail (s : String) : Bool := s.data.any (fun c => c == '@')

/-- The libraries of the examples. -/
def refLibs : Libs := ⟨refJwt, refBcrypt, refIsEmail⟩

/-- A run with no signing secret configured and no other request writing to the store. -/
def quietRun : Run := ⟨⟨none⟩, 1000, "salt", "c0ffee", id⟩

/-- A store with no users. -/
def emptyStore : Store := ⟨[], 1⟩

/-- A registration body that passes validation. -/
def annBody : RawBody :=
  .object [("name", .str "Ann"), ("email", .str "ann@example.org"),
    ("password", .str "Passw0rd!"), ("role", .str "teacher")]

/-- A second registration body with the same email and different other fields. -/
def annaBody : RawBody :=
  .object [("name", .str "Anna"), ("email", .str "ann@example.org"),
    ("password", .str "S3cret?word"), ("role", .str "parent")]

/-- The validated record of `annBody`. -/
def annData : RegisterData := ⟨"Ann", "ann@example.org", "Passw0rd!", "teacher"⟩

/-- The validated record of `annaBody`. -/
def annaData : RegisterData := ⟨"Anna", "ann@example.org", "S3cret?word", "parent"⟩

/-- The row `annBody` registers in `emptyStore`. -/
def annUser : User := ⟨1, "Ann", "ann@example.org", "hashed:Passw0rd!", "teacher"⟩

/-- A store holding `annUser`. -/
def annStore : Store := ⟨[annUser], 2⟩

/-- A run during which another request registers `annUser` between the lookup and the
insertion. -/
def racingRun : Run := ⟨⟨none⟩, 1000, "salt", "c0ffee", fun _ => annStore⟩

/-- A login body that passes validation, with a password that is not Ann's. -/
def wrongLogin : RawBody :=
  .object [("email", .str "ann@example.org"), ("password", .str "guess")]

/-- The validated record of `wrongLogin`. -/
def wrongLoginData : LoginData := ⟨"ann@example.org", "guess"⟩

/-- A Google account whose profile reports Ann's email under another name. -/
def sampleGoogle : GoogleApi :=
  ⟨fun _ => .ok "access", fun _ => .ok ⟨some "Someone Else", some "ann@example.org"⟩⟩

/-- The email list of `sampleGithub`: the primary verified entry comes second. -/
def sampleEmails : List EmailEntry :=
  [⟨"old@example.org", false, true⟩, ⟨"ann@example.org", true, true⟩]

/-- A GitHub account without a display name whose primary verified email is Ann's. -/
def sampleGithub : GithubApi :=
  ⟨fun _ => .ok "access", fun _ => .ok ⟨none, "annhub"⟩, fun _ => .ok sampleEmails⟩

/-- A GitHub account none of whose emails is both primary and verified. -/
def unverifiedGithub : GithubApi :=
  ⟨fun _ => .ok "access", fun _ => .ok ⟨none, "annhub"⟩,
    fun _ => .ok [⟨"ann@example.org", true, false⟩, ⟨"old@example.org", false, true⟩]⟩

/-- The row the Google callback of `sampleGoogle` inserts in `emptyStore`. -/
def googleUser : User := ⟨1, "Someone Else", "ann@example.org", "hashed:c0ffee", "student"⟩

/-- The row the GitHub callback of `sampleGithub` inserts in `emptyStore`. -/
def githubUser : User := ⟨1, "annhub", "ann@example.org", "hashed:c0ffee", "student"⟩

/-! ## Facts about the password pattern -/

theorem length_le_jsLength (s : String) : s.length ≤ jsLength s := by
  have h : ∀ cs : List Char,
      cs.length ≤ (cs.map (fun c => if c.toNat < 65536 then 1 else 2)).sum := by
    intro cs
    induction cs with
    | nil => simp
    | cons c cs ih =>
      simp only [List.length_cons, List.map_cons, List.sum_cons]
      split <;> omega
  exact h s.data

theorem isAllowed_not_lineTerminator (c : Char) (h : isAllowed c = true) :
    isLineTerminator c = false := by
  simp only [isAllowed, isUpper, isLower, isDigit, isSymbol, Bool.or_eq_true, Bool.and_eq_true,
    decide_eq_true_eq] at h
  rcases h with ((h | h) | h) | h
  · simp only [isLineTerminator, Bool.or_eq_false_iff, decide_eq_false_iff_not]; omega
  · simp only [isLineTerminator, Bool.or_eq_false_iff, decide_eq_false_iff_not]; omega
  · simp only [isLineTerminator, Bool.or_eq_false_iff, decide_eq_false_iff_not]; omega
  · rcases h with (((((h | h) | h) | h) | h) | h) | h <;> subst h <;> decide

theorem lookahead_eq_any (cls : Char → Bool) (cs : List Char)
    (h : ∀ c ∈ cs, isLineTerminator c = false) : lookahead cls cs = cs.any cls := by
  induction cs with
  | nil => rfl
  | cons c cs ih =>
    have hc : isLineTerminator c = false := h c (List.mem_cons_self c cs)
    have ih2 := ih (fun x hx => h x (List.mem_cons_of_mem c hx))
    simp [lookahead, hc, ih2]

theorem passwordSchema_ok_iff (p : String) :
    passwordSchema (.str p) = .ok p ↔ (8 ≤ jsLength p ∧ passwordRegex p = true) := by
  unfold passwordSchema parseString
  by_cases h1 : jsLength p < 8 <;> by_cases h2 : passwordRegex p = true <;>
    simp [List.filterMap, minCheck, regexCheck, h1, h2]
  all_goals omega

theorem passwordRegex_iff (p : String) :
    passwordRegex p = true ↔
      8 ≤ p.length ∧ (∀ c ∈ p.data, isAllowed c = true) ∧ (∃ c ∈ p.data, isLower c = true) ∧
      (∃ c ∈ p.data, isUpper c = true) ∧ (∃ c ∈ p.data, isDigit c = true) ∧
      (∃ c ∈ p.data, isSymbol c = true) := by
  constructor
  · intro h
    simp only [passwordRegex, Bool.and_eq_true, List.all_eq_true, decide_eq_true_eq] at h
    obtain ⟨⟨⟨⟨⟨hl, hu⟩, hd⟩, hs⟩, ha⟩, hn⟩ := h
    have hlt : ∀ c ∈ p.data, isLineTerminator c = false :=
      fun c hc => isAllowed_not_lineTerminator c (ha c hc)
    rw [lookahead_eq_any _ _ hlt] at hl hu hd hs
    simp only [List.any_eq_true] at hl hu hd hs
    exact ⟨hn, ha, hl, hu, hd, hs⟩
  · rintro ⟨hn, ha, hl, hu, hd, hs⟩
    have hlt : ∀ c ∈ p.data, isLineTerminator c = false :=
      fun c hc => isAllowed_not_lineTerminator c (ha c hc)
    simp only [passwordRegex, Bool.and_eq_true, List.all_eq_true, decide_eq_true_eq,
      lookahead_eq_any _ _ hlt, List.any_eq_true]
    exact ⟨⟨⟨⟨⟨hl, hu⟩, hd⟩, hs⟩, ha⟩, hn⟩

/-! ## Claims -/

/-- C2, as stated, fails: `Passw0rd!#` has ten characters, a lowercase letter, an uppercase
letter, a digit and the symbol `!`, and the registration schema rejects it. -/
theorem password_other_characters_rejected :
    ¬ (passwordSchema (.str "Passw0rd!#") = .ok "Passw0rd!#" ↔
        (8 ≤ "Passw0rd!#".length ∧ (∃ c ∈ "Passw0rd!#".data, isLower c = true) ∧
         (∃ c ∈ "Passw0rd!#".data, isUpper c = true) ∧
         (∃ c ∈ "Passw0rd!#".data, isDigit c = true) ∧
         (∃ c ∈ "Passw0rd!#".data, isSymbol c = true))) := by
  decide

/-- C2, amended: the registration schema accepts a string as the password exactly when
it has at least 8 characters, every character is a letter, a digit or one of `@$!%*?&`,
and it contains a lowercase letter, an uppercase letter, a digit and one of `@$!%*?&`;
`password` is rejected and `Passw0rd!` is accepted. -/
theorem password_accepted_iff :
    (∀ p : String, passwordSchema (.str p) = .ok p ↔
      (8 ≤ p.length ∧ (∀ c ∈ p.data, isAllowed c = true) ∧ (∃ c ∈ p.data, isLower c = true) ∧
       (∃ c ∈ p.data, isUpper c = true) ∧ (∃ c ∈ p.data, isDigit c = true) ∧
       (∃ c ∈ p.data, isSymbol c = true))) ∧
    passwordSchema (.str "password") ≠ .ok "password" ∧
    passwordSchema (.str "Passw0rd!") = .ok "Passw0rd!" := by
  refine ⟨fun p => ?_, by decide, by decide⟩
  rw [passwordSchema_ok_iff, passwordRegex_iff]
  constructor
  · exact fun h => h.2
  · intro h
    exact ⟨le_trans h.1 (length_le_jsLength p), h⟩

/-! ## Facts about the store -/

theorem Store.create_of_absent (s : Store) (d : UserData) (n : String) (hn : d.name = some n)
    (h : s.findUnique d.email = none) :
    s.create d = .ok (⟨s.nextId, n, d.email, d.password, d.role⟩,
      ⟨s.users ++ [⟨s.nextId, n, d.email, d.password, d.role⟩], s.nextId + 1⟩) := by
  have hany : s.users.any (fun u => u.email == d.email) = false := by
    simp only [Store.findUnique, List.find?_eq_none] at h
    rw [List.any_eq_false]
    exact h
  simp [Store.create, hn, hany]

theorem Store.create_of_present (s : Store) (d : UserData) (w : User)
    (h : s.findUnique d.email = some w) : ∃ e, s.create d = .error e := by
  have hany : s.users.any (fun u => u.email == d.email) = true := by
    rw [List.any_eq_true]
    have h2 : List.find? (fun u => u.email == d.email) s.users = some w := h
    have h3 : (fun u : User => u.email == d.email) w = true :=
      List.find?_some (p := fun u : User => u.email == d.email) h2
    exact ⟨w, List.mem_of_find?_eq_some h2, h3⟩
  unfold Store.create
  cases d.name with
  | none => exact ⟨_, rfl⟩
  | some n => exact ⟨.uniqueViolation, by simp [hany]⟩

theorem Store.create_ok_inv (s : Store) (d : UserData) (u : User) (s2 : Store)
    (h : s.create d = .ok (u, s2)) :
    s.findUnique d.email = none ∧ d.name = some u.name ∧ u.id = s.nextId ∧ u.email = d.email ∧
      u.password = d.password ∧ u.role = d.role ∧ s2.users = s.users ++ [u] ∧
      s2.nextId = s.nextId + 1 := by
  unfold Store.create at h
  cases hn : d.name with
  | none => simp [hn] at h
  | some n =>
    by_cases hany : s.users.any (fun u => u.email == d.email) = true
    · simp [hn, hany] at h
    · have hfind : s.findUnique d.email = none := by
        simp only [Store.findUnique, List.find?_eq_none]
        intro x hx
        have hx2 : ¬ ∃ y ∈ s.users, (y.email == d.email) = true := by
          rw [← List.any_eq_true]
          exact hany
        exact fun hxe => hx2 ⟨x, hx, hxe⟩
      simp only [hn] at h
      rw [if_neg hany] at h
      injection h with h
      injection h with hu hs
      subst hu
      subst hs
      exact ⟨hfind, rfl, rfl, rfl, rfl, rfl, rfl, rfl⟩

theorem Store.findUnique_after_create (s : Store) (d : UserData) (u : User) (s2 : Store)
    (h : s.create d = .ok (u, s2)) : s2.findUnique d.email = some u := by
  obtain ⟨hfind, _, _, hemail, _, _, husers, _⟩ := Store.create_ok_inv s d u s2 h
  simp only [Store.findUnique] at hfind ⊢
  rw [husers, List.find?_append, hfind]
  simp [List.find?, hemail]

/-! ## Facts about `register` and `login` -/

theorem register_of_present (L : Libs) (R : Run) (s : Store) (body : RawBody)
    (d : RegisterData) (w : User) (h : registerSchema L.isEmail body = .ok d)
    (hfind : s.findUnique d.email = some w) :
    register L R s body = ⟨.fail 400 "User already exists", s, [.dbFind d.email]⟩ := by
  simp only [register, h, hfind]

theorem register_of_created (L : Libs) (R : Run) (s : Store) (body : RawBody)
    (d : RegisterData) (u : User) (s2 : Store) (h : registerSchema L.isEmail body = .ok d)
    (hfind : s.findUnique d.email = none)
    (hcreate : (R.interference s).create
      ⟨some d.name, d.email, L.bcrypt.hash d.password 10 R.salt, d.role⟩ = .ok (u, s2)) :
    register L R s body =
      ⟨.success 201 "User registered successfully" (publicUser u) (issueToken L R u), s2,
        [.dbFind d.email,
         .dbCreate ⟨some d.name, d.email, L.bcrypt.hash d.password 10 R.salt, d.role⟩,
         .jwtSign (tokenPayload u) (jwtKey R.env)]⟩ := by
  simp only [register, h, hfind, hcreate]

theorem register_of_refused (L : Libs) (R : Run) (s : Store) (body : RawBody)
    (d : RegisterData) (e : DbError) (h : registerSchema L.isEmail body = .ok d)
    (hfind : s.findUnique d.email = none)
    (hcreate : (R.interference s).create
      ⟨some d.name, d.email, L.bcrypt.hash d.password 10 R.salt, d.role⟩ = .error e) :
    register L R s body =
      ⟨.fail 500 "Registration failed", R.interference s,
        [.dbFind d.email,
         .dbCreate ⟨some d.name, d.email, L.bcrypt.hash d.password 10 R.salt, d.role⟩]⟩ := by
  simp only [register, h, hfind, hcreate]

/-! ## Claims on registration and login -/

/-- C1: when two registration bodies pass validation with the same email, the first is
registered in a store with no other request writing in between and the store's create
succeeds, the first call answers 201 and the second answers 400 "User already exists"
whatever its other fields are; the second call leaves the store as the first call left
it, returns no token, and neither inserts nor signs. -/
theorem register_same_email_twice (L : Libs) (R1 R2 : Run) (s s1 : Store) (b1 b2 : RawBody)
    (d1 d2 : RegisterData) (u : User)
    (h1 : registerSchema L.isEmail b1 = .ok d1)
    (h2 : registerSchema L.isEmail b2 = .ok d2)
    (hemail : d1.email = d2.email)
    (hseq : R1.interference s = s)
    (hcreate : s.create ⟨some d1.name, d1.email, L.bcrypt.hash d1.password 10 R1.salt, d1.role⟩
      = .ok (u, s1)) :
    (register L R1 s b1).response.status = 201 ∧
    (register L R1 s b1).store = s1 ∧
    (register L R2 (register L R1 s b1).store b2).response = .fail 400 "User already exists" ∧
    (register L R2 (register L R1 s b1).store b2).store = (register L R1 s b1).store ∧
    (register L R2 (register L R1 s b1).store b2).response.token? = none ∧
    (register L R2 (register L R1 s b1).store b2).log = [.dbFind d2.email] := by
  have hfind : s.findUnique d1.email = none := (Store.create_ok_inv s _ u s1 hcreate).1
  have hc : (R1.interference s).create
      ⟨some d1.name, d1.email, L.bcrypt.hash d1.password 10 R1.salt, d1.role⟩ = .ok (u, s1) := by
    rw [hseq]; exact hcreate
  have hafter : s1.findUnique d2.email = some u := by
    rw [← hemail]; exact Store.findUnique_after_create s _ u s1 hcreate
  rw [register_of_created L R1 s b1 d1 u s1 h1 hfind hc]
  rw [register_of_present L R2 s1 b2 d2 u h2 hafter]
  exact ⟨rfl, rfl, rfl, rfl, rfl, rfl⟩

/-- Witness for C1: Ann registers in the empty store, then Anna with the same email. -/
theorem register_same_email_twice_witness :
    (register refLibs quietRun emptyStore annBody).response.status = 201 ∧
    (register refLibs quietRun emptyStore annBody).store = annStore ∧
    (register refLibs quietRun (register refLibs quietRun emptyStore annBody).store
      annaBody).response = .fail 400 "User already exists" ∧
    (register refLibs quietRun (register refLibs quietRun emptyStore annBody).store
      annaBody).store = (register refLibs quietRun emptyStore annBody).store ∧
    (register refLibs quietRun (register refLibs quietRun emptyStore annBody).store
      annaBody).response.token? = none ∧
    (register refLibs quietRun (register refLibs quietRun emptyStore annBody).store
      annaBody).log = [.dbFind "ann@example.org"] :=
  register_same_email_twice refLibs quietRun quietRun emptyStore annStore annBody annaBody
    annData annaData annUser (by decide) (by decide) rfl rfl (by decide)

/-- C7, as stated, fails: the lookup finds nobody, another request inserts the same email
before this one does, and the answer is 500 "Registration failed". -/
theorem register_lost_race_is_500 :
    registerSchema refLibs.isEmail annBody = .ok annData ∧
    emptyStore.findUnique annData.email = none ∧
    (racingRun.interference emptyStore).findUnique annData.email = some annUser ∧
    (register refLibs racingRun emptyStore annBody).response
      = .fail 500 "Registration failed" ∧
    (register refLibs racingRun emptyStore annBody).response
      ≠ .fail 400 "User already exists" := by
  decide

/-- C7, amended: for a validated payload, when the lookup by email finds nobody and
the email is in the store at insertion time, so that the store's create fails, register
answers with the server error 500 "Registration failed"; it inserts nothing and signs
no token. -/
theorem register_lost_race (L : Libs) (R : Run) (s : Store) (body : RawBody)
    (d : RegisterData) (w : User)
    (h : registerSchema L.isEmail body = .ok d)
    (hfind : s.findUnique d.email = none)
    (hrace : (R.interference s).findUnique d.email = some w) :
    (register L R s body).response = .fail 500 "Registration failed" ∧
    (register L R s body).store = R.interference s ∧
    (register L R s body).response.token? = none ∧
    (register L R s body).log.all (fun e => !e.isSign) = true := by
  obtain ⟨e, he⟩ := Store.create_of_present (R.interference s)
    ⟨some d.name, d.email, L.bcrypt.hash d.password 10 R.salt, d.role⟩ w hrace
  rw [register_of_refused L R s body d e h hfind he]
  exact ⟨rfl, rfl, rfl, rfl⟩

/-- Witness for C7, amended: Ann's registration loses the race in `racingRun`. -/
theorem register_lost_race_witness :
    (register refLibs racingRun emptyStore annBody).response = .fail 500 "Registration failed" ∧
    (register refLibs racingRun emptyStore annBody).store = racingRun.interference emptyStore ∧
    (register refLibs racingRun emptyStore annBody).response.token? = none ∧
    (register refLibs racingRun emptyStore annBody).log.all (fun e => !e.isSign) = true :=
  register_lost_race refLibs racingRun emptyStore annBody annData annUser
    (by decide) (by decide) (by decide)

/-- C3, as stated, fails: the same validated login payload gets "User not found" from a
store without the email and "Invalid credentials" from a store where the email is known
and the password does not match. -/
theorem login_failures_differ :
    loginSchema refLibs.isEmail wrongLogin = .ok wrongLoginData ∧
    emptyStore.findUnique wrongLoginData.email = none ∧
    annStore.findUnique wrongLoginData.email = some annUser ∧
    refLibs.bcrypt.compare wrongLoginData.password annUser.password = false ∧
    (login refLibs quietRun emptyStore wrongLogin).response
      ≠ (login refLibs quietRun annStore wrongLogin).response := by
  decide

/-- C3, amended: for a validated login payload, an email unknown to the store gets 400
"User not found" and a known email whose password does not match the stored hash gets
400 "Invalid credentials": the status is the same and the message tells the two cases
apart; in both the store is unchanged and no token is signed. -/
theorem login_failure_responses (L : Libs) (R : Run) (s : Store) (body : RawBody)
    (d : LoginData) (h : loginSchema L.isEmail body = .ok d) :
    (s.findUnique d.email = none →
      login L R s body = ⟨.fail 400 "User not found", s, [.dbFind d.email]⟩) ∧
    (∀ u, s.findUnique d.email = some u → L.bcrypt.compare d.password u.password = false →
      login L R s body = ⟨.fail 400 "Invalid credentials", s, [.dbFind d.email]⟩) := by
  constructor
  · intro hfind
    simp only [login, h, hfind]
  · intro u hfind hcmp
    simp [login, h, hfind, hcmp]

/-- Witness for C3, amended: the two failures of `wrongLogin`. -/
theorem login_failure_responses_witness :
    login refLibs quietRun emptyStore wrongLogin
      = ⟨.fail 400 "User not found", emptyStore, [.dbFind "ann@example.org"]⟩ ∧
    login refLibs quietRun annStore wrongLogin
      = ⟨.fail 400 "Invalid credentials", annStore, [.dbFind "ann@example.org"]⟩ :=
  ⟨(login_failure_responses refLibs quietRun emptyStore wrongLogin wrongLoginData
      (by decide)).1 (by decide),
   (login_failure_responses refLibs quietRun annStore wrongLogin wrongLoginData
      (by decide)).2 annUser (by decide) (by decide)⟩

/-! ## Facts about validation -/

theorem parseString_error (key : String) (checks : List StringCheck) (v : JsVal)
    (is : List Issue) (h : parseString key checks v = .error is) :
    ∃ i rest, is = i :: rest ∧ i.path = [key] := by
  cases v with
  | str t =>
    simp only [parseString] at h
    split at h
    · cases h
    · injection h with h
      subst h
      exact ⟨_, _, rfl, rfl⟩
  | undefined => injection h with h; subst h; exact ⟨_, _, rfl, rfl⟩
  | null => injection h with h; subst h; exact ⟨_, _, rfl, rfl⟩
  | boolean b => injection h with h; subst h; exact ⟨_, _, rfl, rfl⟩
  | number n => injection h with h; subst h; exact ⟨_, _, rfl, rfl⟩
  | array => injection h with h; subst h; exact ⟨_, _, rfl, rfl⟩
  | object => injection h with h; subst h; exact ⟨_, _, rfl, rfl⟩

theorem parseRole_error (key : String) (v : JsVal) (is : List Issue)
    (h : parseRole key v = .error is) : ∃ i rest, is = i :: rest ∧ i.path = [key] := by
  cases v with
  | str t =>
    simp only [parseRole] at h
    split at h
    · cases h
    · injection h with h
      subst h
      exact ⟨_, _, rfl, rfl⟩
  | undefined => injection h with h; subst h; exact ⟨_, _, rfl, rfl⟩
  | null => injection h with h; subst h; exact ⟨_, _, rfl, rfl⟩
  | boolean b => injection h with h; subst h; exact ⟨_, _, rfl, rfl⟩
  | number n => injection h with h; subst h; exact ⟨_, _, rfl, rfl⟩
  | array => injection h with h; subst h; exact ⟨_, _, rfl, rfl⟩
  | object => injection h with h; subst h; exact ⟨_, _, rfl, rfl⟩

theorem registerSchema_object (isEmail : String → Bool) (fields : List (String × JsVal)) :
    (∃ n e p r, nameSchema (getField fields "name") = .ok n ∧
      emailSchema isEmail (getField fields "email") = .ok e ∧
      passwordSchema (getField fields "password") = .ok p ∧
      roleSchema (getField fields "role") = .ok r ∧
      registerSchema isEmail (.object fields) = .ok ⟨n, e, p, r⟩) ∨
    registerSchema isEmail (.object fields) =
      .error (fieldIssues (nameSchema (getField fields "name")) ++
        fieldIssues (emailSchema isEmail (getField fields "email")) ++
        fieldIssues (passwordSchema (getField fields "password")) ++
        fieldIssues (roleSchema (getField fields "role"))) := by
  simp only [registerSchema]
  cases nameSchema (getField fields "name") <;>
    cases emailSchema isEmail (getField fields "email") <;>
    cases passwordSchema (getField fields "password") <;>
    cases roleSchema (getField fields "role") <;> simp

theorem loginSchema_object (isEmail : String → Bool) (fields : List (String × JsVal)) :
    (∃ e p, emailSchema isEmail (getField fields "email") = .ok e ∧
      loginPasswordSchema (getField fields "password") = .ok p ∧
      loginSchema isEmail (.object fields) = .ok ⟨e, p⟩) ∨
    loginSchema isEmail (.object fields) =
      .error (fieldIssues (emailSchema isEmail (getField fields "email")) ++
        fieldIssues (loginPasswordSchema (getField fields "password"))) := by
  simp only [loginSchema]
  cases emailSchema isEmail (getField fields "email") <;>
    cases loginPasswordSchema (getField fields "password") <;> simp

theorem fieldIssues_concat_nonempty (isEmail : String → Bool) (fields : List (String × JsVal))
    (h : ¬ ∃ n e p r, nameSchema (getField fields "name") = .ok n ∧
      emailSchema isEmail (getField fields "email") = .ok e ∧
      passwordSchema (getField fields "password") = .ok p ∧
      roleSchema (getField fields "role") = .ok r) :
    ∃ i tail, fieldIssues (nameSchema (getField fields "name")) ++
        fieldIssues (emailSchema isEmail (getField fields "email")) ++
        fieldIssues (passwordSchema (getField fields "password")) ++
        fieldIssues (roleSchema (getField fields "role")) = i :: tail := by
  cases hn : nameSchema (getField fields "name") with
  | error e1 =>
    obtain ⟨i, rest, hi, _⟩ := parseString_error _ _ _ _ hn
    subst hi
    exact ⟨i, _, rfl⟩
  | ok n =>
    cases he : emailSchema isEmail (getField fields "email") with
    | error e2 =>
      obtain ⟨i, rest, hi, _⟩ := parseString_error _ _ _ _ he
      subst hi
      exact ⟨i, _, rfl⟩
    | ok e =>
      cases hp : passwordSchema (getField fields "password") with
      | error e3 =>
        obtain ⟨i, rest, hi, _⟩ := parseString_error _ _ _ _ hp
        subst hi
        exact ⟨i, _, rfl⟩
      | ok pw =>
        cases hr : roleSchema (getField fields "role") with
        | error e4 =>
          obtain ⟨i, rest, hi, _⟩ := parseRole_error _ _ _ hr
          subst hi
          exact ⟨i, _, rfl⟩
        | ok r => exact absurd ⟨n, e, pw, r, hn, he, hp, hr⟩ h

theorem registerSchema_nonempty (isEmail : String → Bool) (body : RawBody)
    (is : List Issue) (h : registerSchema isEmail body = .error is) :
    ∃ i rest, is = i :: rest := by
  cases body with
  | object fields =>
    rcases registerSchema_object isEmail fields with ⟨n, e, p, r, _, _, _, _, hok⟩ | herr
    · rw [hok] at h
      cases h
    · have hnot : ¬ ∃ n e p r, nameSchema (getField fields "name") = .ok n ∧
          emailSchema isEmail (getField fields "email") = .ok e ∧
          passwordSchema (getField fields "password") = .ok p ∧
          roleSchema (getField fields "role") = .ok r := by
        rintro ⟨n, e, p, r, hn, he, hp, hr⟩
        simp only [registerSchema, hn, he, hp, hr] at herr
        cases herr
      obtain ⟨i, tail, hit⟩ := fieldIssues_concat_nonempty isEmail fields hnot
      rw [herr] at h
      injection h with h
      exact ⟨i, tail, h.symm.trans hit⟩
  | undefined => injection h with h; subst h; exact ⟨_, _, rfl⟩
  | null => injection h with h; subst h; exact ⟨_, _, rfl⟩
  | boolean b => injection h with h; subst h; exact ⟨_, _, rfl⟩
  | number n => injection h with h; subst h; exact ⟨_, _, rfl⟩
  | str t => injection h with h; subst h; exact ⟨_, _, rfl⟩
  | array => injection h with h; subst h; exact ⟨_, _, rfl⟩

theorem loginSchema_nonempty (isEmail : String → Bool) (body : RawBody)
    (is : List Issue) (h : loginSchema isEmail body = .error is) :
    ∃ i rest, is = i :: rest := by
  cases body with
  | object fields =>
    rcases loginSchema_object isEmail fields with ⟨e, p, _, _, hok⟩ | herr
    · rw [hok] at h
      cases h
    · rw [herr] at h
      injection h with h
      subst h
      cases he : emailSchema isEmail (getField fields "email") with
      | error e2 =>
        obtain ⟨i, rest, hi, _⟩ := parseString_error _ _ _ _ he
        subst hi
        exact ⟨i, _, rfl⟩
      | ok e =>
        cases hp : loginPasswordSchema (getField fields "password") with
        | error e3 =>
          obtain ⟨i, rest, hi, _⟩ := parseString_error _ _ _ _ hp
          subst hi
          exact ⟨i, _, rfl⟩
        | ok pw =>
          simp only [loginSchema, he, hp] at herr
          cases herr
  | undefined => injection h with h; subst h; exact ⟨_, _, rfl⟩
  | null => injection h with h; subst h; exact ⟨_, _, rfl⟩
  | boolean b => injection h with h; subst h; exact ⟨_, _, rfl⟩
  | number n => injection h with h; subst h; exact ⟨_, _, rfl⟩
  | str t => injection h with h; subst h; exact ⟨_, _, rfl⟩
  | array => injection h with h; subst h; exact ⟨_, _, rfl⟩

theorem register_of_invalid (L : Libs) (R : Run) (s : Store) (body : RawBody) (i : Issue)
    (rest : List Issue) (h : registerSchema L.isEmail body = .error (i :: rest)) :
    register L R s body = ⟨.fail 400 i.message, s, []⟩ := by
  simp only [register, h, List.head?]

theorem login_of_invalid (L : Libs) (R : Run) (s : Store) (body : RawBody) (i : Issue)
    (rest : List Issue) (h : loginSchema L.isEmail body = .error (i :: rest)) :
    login L R s body = ⟨.fail 400 i.message, s, []⟩ := by
  simp only [login, h, List.head?]

theorem register_first_issue (L : Libs) (R : Run) (s : Store)
    (fields : List (String × JsVal)) (i : Issue) (tail : List Issue)
    (h : fieldIssues (nameSchema (getField fields "name")) ++
        fieldIssues (emailSchema L.isEmail (getField fields "email")) ++
        fieldIssues (passwordSchema (getField fields "password")) ++
        fieldIssues (roleSchema (getField fields "role")) = i :: tail) :
    register L R s (.object fields) = ⟨.fail 400 i.message, s, []⟩ := by
  rcases registerSchema_object L.isEmail fields with ⟨n, e, p, r, hn, he, hp, hr, _⟩ | herr
  · simp [hn, he, hp, hr, fieldIssues] at h
  · rw [h] at herr
    exact register_of_invalid L R s _ i tail herr

theorem login_first_issue (L : Libs) (R : Run) (s : Store)
    (fields : List (String × JsVal)) (i : Issue) (tail : List Issue)
    (h : fieldIssues (emailSchema L.isEmail (getField fields "email")) ++
        fieldIssues (loginPasswordSchema (getField fields "password")) = i :: tail) :
    login L R s (.object fields) = ⟨.fail 400 i.message, s, []⟩ := by
  rcases loginSchema_object L.isEmail fields with ⟨e, p, he, hp, _⟩ | herr
  · simp [he, hp, fieldIssues] at h
  · rw [h] at herr
    exact login_of_invalid L R s _ i tail herr

/-! ## Claim on validation -/

/-- C9, as stated, fails: the error string does not identify the failing field.  An empty
object fails first at `name`, an object with only a name fails first at `email`, and both
get the one string "Required"; so no reading of the error string gives the path of the
first issue. -/
theorem validation_message_not_identifying :
    registerSchema refLibs.isEmail (.object []) =
      .error [⟨["name"], "Required"⟩, ⟨["email"], "Required"⟩, ⟨["password"], "Required"⟩,
        ⟨["role"], "Required"⟩] ∧
    registerSchema refLibs.isEmail (.object [("name", .str "Ann")]) =
      .error [⟨["email"], "Required"⟩, ⟨["password"], "Required"⟩, ⟨["role"], "Required"⟩] ∧
    (register refLibs quietRun emptyStore (.object [])).response = .fail 400 "Required" ∧
    (register refLibs quietRun emptyStore (.object [("name", .str "Ann")])).response =
      .fail 400 "Required" ∧
    ¬ ∃ field : String → List String, ∀ body i rest,
        registerSchema refLibs.isEmail body = .error (i :: rest) →
        field i.message = i.path := by
  refine ⟨by decide, by decide, by decide, by decide, ?_⟩
  rintro ⟨field, h⟩
  have h1 := h (.object []) ⟨["name"], "Required"⟩
    [⟨["email"], "Required"⟩, ⟨["password"], "Required"⟩, ⟨["role"], "Required"⟩] (by decide)
  have h2 := h (.object [("name", .str "Ann")]) ⟨["email"], "Required"⟩
    [⟨["password"], "Required"⟩, ⟨["role"], "Required"⟩] (by decide)
  simp only at h1 h2
  rw [h1] at h2
  exact absurd h2 (by decide)

/-- C9, amended: registration and login validation are total.  For every raw body each
either yields the validated record or makes the handler answer 400 with one error
string, the message of the first issue, leaving the store alone.  A body that is not
an object gets the message for the body itself; for an object the string is the first
message of the first field that fails in schema order (name, email, password, role for
registration; email, password for login).  The string names the field only when the
failing check has a message of its own: a missing field reads "Required" whichever
field it is. -/
theorem validation_first_failure (L : Libs) (R : Run) (s : Store) :
    (∀ body, (∃ d, registerSchema L.isEmail body = .ok d) ∨
      (∃ i rest, registerSchema L.isEmail body = .error (i :: rest) ∧
        register L R s body = ⟨.fail 400 i.message, s, []⟩)) ∧
    (∀ body, (∃ d, loginSchema L.isEmail body = .ok d) ∨
      (∃ i rest, loginSchema L.isEmail body = .error (i :: rest) ∧
        login L R s body = ⟨.fail 400 i.message, s, []⟩)) ∧
    (∀ body, (∀ fields, body ≠ .object fields) →
      register L R s body = ⟨.fail 400 (invalidTypeMessage "object" body.parsedType), s, []⟩ ∧
      login L R s body = ⟨.fail 400 (invalidTypeMessage "object" body.parsedType), s, []⟩) ∧
    (∀ fields,
      (∀ is, nameSchema (getField fields "name") = .error is →
        ∃ i rest, is = i :: rest ∧ i.path = ["name"] ∧
          register L R s (.object fields) = ⟨.fail 400 i.message, s, []⟩) ∧
      (∀ n is, nameSchema (getField fields "name") = .ok n →
        emailSchema L.isEmail (getField fields "email") = .error is →
        ∃ i rest, is = i :: rest ∧ i.path = ["email"] ∧
          register L R s (.object fields) = ⟨.fail 400 i.message, s, []⟩) ∧
      (∀ n e is, nameSchema (getField fields "name") = .ok n →
        emailSchema L.isEmail (getField fields "email") = .ok e →
        passwordSchema (getField fields "password") = .error is →
        ∃ i rest, is = i :: rest ∧ i.path = ["password"] ∧
          register L R s (.object fields) = ⟨.fail 400 i.message, s, []⟩) ∧
      (∀ n e p is, nameSchema (getField fields "name") = .ok n →
        emailSchema L.isEmail (getField fields "email") = .ok e →
        passwordSchema (getField fields "password") = .ok p →
        roleSchema (getField fields "role") = .error is →
        ∃ i rest, is = i :: rest ∧ i.path = ["role"] ∧
          register L R s (.object fields) = ⟨.fail 400 i.message, s, []⟩) ∧
      (∀ n e p r, nameSchema (getField fields "name") = .ok n →
        emailSchema L.isEmail (getField fields "email") = .ok e →
        passwordSchema (getField fields "password") = .ok p →
        roleSchema (getField fields "role") = .ok r →
        registerSchema L.isEmail (.object fields) = .ok ⟨n, e, p, r⟩)) ∧
    (∀ fields,
      (∀ is, emailSchema L.isEmail (getField fields "email") = .error is →
        ∃ i rest, is = i :: rest ∧ i.path = ["email"] ∧
          login L R s (.object fields) = ⟨.fail 400 i.message, s, []⟩) ∧
      (∀ e is, emailSchema L.isEmail (getField fields "email") = .ok e →
        loginPasswordSchema (getField fields "password") = .error is →
        ∃ i rest, is = i :: rest ∧ i.path = ["password"] ∧
          login L R s (.object fields) = ⟨.fail 400 i.message, s, []⟩) ∧
      (∀ e p, emailSchema L.isEmail (getField fields "email") = .ok e →
        loginPasswordSchema (getField fields "password") = .ok p →
        loginSchema L.isEmail (.object fields) = .ok ⟨e, p⟩)) ∧
    (nameSchema .undefined = .error [⟨["name"], "Required"⟩] ∧
      emailSchema L.isEmail .undefined = .error [⟨["email"], "Required"⟩] ∧
      passwordSchema .undefined = .error [⟨["password"], "Required"⟩] ∧
      roleSchema .undefined = .error [⟨["role"], "Required"⟩] ∧
      loginPasswordSchema .undefined = .error [⟨["password"], "Required"⟩]) := by
  refine ⟨?_, ?_, ?_, ?_, ?_, ⟨rfl, rfl, rfl, rfl, rfl⟩⟩
  · intro body
    cases hres : registerSchema L.isEmail body with
    | ok d => exact Or.inl ⟨d, rfl⟩
    | error is =>
      obtain ⟨i, rest, hi⟩ := registerSchema_nonempty L.isEmail body is hres
      subst hi
      exact Or.inr ⟨i, rest, rfl, register_of_invalid L R s body i rest hres⟩
  · intro body
    cases hres : loginSchema L.isEmail body with
    | ok d => exact Or.inl ⟨d, rfl⟩
    | error is =>
      obtain ⟨i, rest, hi⟩ := loginSchema_nonempty L.isEmail body is hres
      subst hi
      exact Or.inr ⟨i, rest, rfl, login_of_invalid L R s body i rest hres⟩
  · intro body hbody
    cases body with
    | object fields => exact absurd rfl (hbody fields)
    | undefined => exact ⟨rfl, rfl⟩
    | null => exact ⟨rfl, rfl⟩
    | boolean b => exact ⟨rfl, rfl⟩
    | number n => exact ⟨rfl, rfl⟩
    | str t => exact ⟨rfl, rfl⟩
    | array => exact ⟨rfl, rfl⟩
  · intro fields
    refine ⟨?_, ?_, ?_, ?_, ?_⟩
    · intro is hn
      obtain ⟨i, rest, hi, hpath⟩ := parseString_error _ _ _ _ hn
      subst hi
      exact ⟨i, rest, rfl, hpath, register_first_issue L R s fields i _
        (by simp only [hn, fieldIssues, List.cons_append]; rfl)⟩
    · intro n is hn he
      obtain ⟨i, rest, hi, hpath⟩ := parseString_error _ _ _ _ he
      subst hi
      exact ⟨i, rest, rfl, hpath, register_first_issue L R s fields i _
        (by simp only [hn, he, fieldIssues, List.nil_append, List.cons_append]; rfl)⟩
    · intro n e is hn he hp
      obtain ⟨i, rest, hi, hpath⟩ := parseString_error _ _ _ _ hp
      subst hi
      exact ⟨i, rest, rfl, hpath, register_first_issue L R s fields i _
        (by simp only [hn, he, hp, fieldIssues, List.nil_append, List.cons_append]; rfl)⟩
    · intro n e p is hn he hp hr
      obtain ⟨i, rest, hi, hpath⟩ := parseRole_error _ _ _ hr
      subst hi
      exact ⟨i, rest, rfl, hpath, register_first_issue L R s fields i _
        (by simp only [hn, he, hp, hr, fieldIssues, List.nil_append, List.cons_append]; rfl)⟩
    · intro n e p r hn he hp hr
      simp only [registerSchema, hn, he, hp, hr]
  · intro fields
    refine ⟨?_, ?_, ?_⟩
    · intro is he
      obtain ⟨i, rest, hi, hpath⟩ := parseString_error _ _ _ _ he
      subst hi
      exact ⟨i, rest, rfl, hpath, login_first_issue L R s fields i _
        (by simp only [he, fieldIssues, List.cons_append]; rfl)⟩
    · intro e is he hp
      obtain ⟨i, rest, hi, hpath⟩ := parseString_error _ _ _ _ hp
      subst hi
      exact ⟨i, rest, rfl, hpath, login_first_issue L R s fields i _
        (by simp only [he, hp, fieldIssues, List.nil_append, List.cons_append]; rfl)⟩
    · intro e p he hp
      simp only [loginSchema, he, hp]

/-! ## Facts about the middleware -/

theorem removeFirst_eq_nil_iff (pat l : List Char) :
    removeFirst pat l = [] ↔ l = [] ∨ l = pat := by
  cases l with
  | nil =>
    constructor
    · exact fun _ => Or.inl rfl
    · exact fun _ => rfl
  | cons c cs =>
    by_cases hp : pat.isPrefixOf (c :: cs) = true
    · simp only [removeFirst, hp, if_true, List.drop_eq_nil_iff]
      have hpre : pat <+: c :: cs := List.isPrefixOf_iff_prefix.mp hp
      constructor
      · intro hlen
        exact Or.inr (hpre.eq_of_length (le_antisymm hpre.length_le hlen)).symm
      · rintro (h | h)
        · cases h
        · rw [h]
    · simp only [removeFirst, hp]
      constructor
      · intro h
        cases h
      · rintro (h | h)
        · cases h
        · exfalso
          apply hp
          rw [h]
          exact List.isPrefixOf_iff_prefix.mpr (List.prefix_refl pat)

theorem removeFirst_append (pat t : List Char) (hpat : pat ≠ []) :
    removeFirst pat (pat ++ t) = t := by
  cases hpt : pat ++ t with
  | nil =>
    have := List.append_eq_nil.mp hpt
    exact absurd this.1 hpat
  | cons c cs =>
    have hp : pat.isPrefixOf (c :: cs) = true := by
      rw [← hpt]
      exact List.isPrefixOf_iff_prefix.mpr (List.prefix_append pat t)
    simp only [removeFirst, hp, if_true]
    rw [← hpt, List.drop_left]

theorem bearerToken_of_bearer (token : String) :
    bearerToken (some ("Bearer " ++ token)) = some token := by
  simp only [bearerToken, Option.map_some', String.data_append]
  rw [removeFirst_append _ _ (by decide)]

theorem truthy_iff (t : String) : truthy t = true ↔ t ≠ "" := by
  simp [truthy]

/-! ## Claim on the middleware -/

/-- C4, as stated, fails: with the `Authorization` header present and empty, or holding
only the scheme `Bearer `, the middleware answers 401 "Access denied. No token provided.",
not 400 "Invalid token". -/
theorem authMiddleware_empty_header_is_401 :
    authMiddleware refJwt ⟨none⟩ 1000 (some "")
      = ⟨some (.denied 401 "Access denied. No token provided."), false, none⟩ ∧
    authMiddleware refJwt ⟨none⟩ 1000 (some "Bearer ")
      = ⟨some (.denied 401 "Access denied. No token provided."), false, none⟩ := by
  decide

/-- C4, amended: the middleware answers 401 "Access denied. No token provided." exactly when
the `Authorization` header is missing, empty, or just `Bearer `; for a header that leaves
a non-empty token which `jwt.verify` refuses (malformed, wrongly signed or expired) it
answers 400 "Invalid token"; whenever it answers, `next` is not called and no claims are
attached to the request. -/
theorem authMiddleware_rejections (J : JwtLib) (env : Env) (now : Nat)
    (authorization : Option String) :
    ((authMiddleware J env now authorization).response
        = some (.denied 401 "Access denied. No token provided.") ↔
      (authorization = none ∨ authorization = some "" ∨ authorization = some "Bearer ")) ∧
    (∀ token e, bearerToken authorization = some token → token ≠ "" →
      J.verify token (jwtKey env) now = .error e →
      authMiddleware J env now authorization = ⟨some (.denied 400 "Invalid token"), false, none⟩) ∧
    (∀ r, (authMiddleware J env now authorization).response = some r →
      (authMiddleware J env now authorization).nextCalled = false ∧
      (authMiddleware J env now authorization).user = none) := by
  refine ⟨?_, ?_, ?_⟩
  · cases authorization with
    | none => simp [authMiddleware, bearerToken]
    | some h =>
      have hempty : String.mk (removeFirst "Bearer ".data h.data) = "" ↔
          (h = "" ∨ h = "Bearer ") := by
        rw [String.ext_iff, String.ext_iff, String.ext_iff]
        exact removeFirst_eq_nil_iff _ _
      by_cases ht : truthy (String.mk (removeFirst "Bearer ".data h.data)) = true
      · have hne := (truthy_iff _).mp ht
        have hno : ¬ (h = "" ∨ h = "Bearer ") := fun hh => hne (hempty.mpr hh)
        simp only [authMiddleware, bearerToken, Option.map_some', ht, if_true]
        cases J.verify (String.mk (removeFirst "Bearer ".data h.data)) (jwtKey env) now with
        | ok decoded => simpa using hno
        | error e => simpa using hno
      · have he : String.mk (removeFirst "Bearer ".data h.data) = "" := by
          by_contra hc
          exact ht ((truthy_iff _).mpr hc)
        have hyes := hempty.mp he
        simp only [authMiddleware, bearerToken, Option.map_some', ht]
        simpa using hyes
  · intro token e htok hne hver
    have ht : truthy token = true := (truthy_iff token).mpr hne
    simp only [authMiddleware, htok, ht, if_true, hver]
  · intro r hr
    unfold authMiddleware at hr ⊢
    cases hb : bearerToken authorization with
    | none => exact ⟨rfl, rfl⟩
    | some token =>
      rw [hb] at hr
      by_cases ht : truthy token = true
      · simp only [ht, if_true] at hr ⊢
        cases hv : J.verify token (jwtKey env) now with
        | ok decoded =>
          rw [hv] at hr
          cases hr
        | error e => exact ⟨rfl, rfl⟩
      · simp only [ht] at hr ⊢
        exact ⟨rfl, rfl⟩

/-- Witness for C4, amended: a header without scheme holding text that is no token. -/
theorem authMiddleware_rejections_witness :
    authMiddleware refJwt ⟨none⟩ 1000 (some "garbage")
      = ⟨some (.denied 400 "Invalid token"), false, none⟩ :=
  (authMiddleware_rejections refJwt ⟨none⟩ 1000 (some "garbage")).2.1 "garbage"
    JwtError.malformed (by decide) (by decide) (by decide)

/-! ## Facts about tokens and user resolution -/

theorem decode_issueToken (L : Libs) (R : Run) (u : User) :
    (L.jwt.decode (issueToken L R u)).map Jws.payload =
      some [("userId", Claim.num u.id), ("role", Claim.str u.role), ("iat", Claim.num R.now),
        ("exp", Claim.num (R.now + 3600))] := by
  simp only [issueToken, JwtLib.sign, L.jwt.decode_encode, Option.map_some', tokenPayload,
    List.cons_append, List.nil_append]

theorem verify_issueToken (L : Libs) (R : Run) (u : User) (now : Nat)
    (hlife : now < R.now + 3600) :
    L.jwt.verify (issueToken L R u) (jwtKey R.env) now =
      .ok [("userId", Claim.num u.id), ("role", Claim.str u.role), ("iat", Claim.num R.now),
        ("exp", Claim.num (R.now + 3600))] := by
  have hexp : List.lookup "exp" [("userId", Claim.num u.id), ("role", Claim.str u.role),
      ("iat", Claim.num R.now), ("exp", Claim.num (R.now + 3600))]
      = some (Claim.num (R.now + 3600)) := by
    simp [List.lookup]
  have hnot : ¬ R.now + 3600 ≤ now := by omega
  simp only [issueToken, JwtLib.sign, JwtLib.verify, L.jwt.decode_encode, tokenPayload,
    List.cons_append, List.nil_append, if_true, hexp, hnot, if_false]

theorem resolveUser_of_present (L : Libs) (R : Run) (s : Store) (failure email : String)
    (name : Option String) (u : User) (hfind : s.findUnique email = some u) :
    resolveUser L R s failure email name =
      ⟨.redirect ("http://localhost:3000?token=" ++ issueToken L R u), s,
        [.dbFind email, .jwtSign (tokenPayload u) (jwtKey R.env)]⟩ := by
  simp only [resolveUser, hfind]

theorem resolveUser_of_absent (L : Libs) (R : Run) (s : Store) (failure email : String)
    (name : Option String) (hfind : s.findUnique email = none)
    (hred : (resolveUser L R s failure email name).response.isRedirect = true) :
    ∃ u, name = some u.name ∧ u.id = (R.interference s).nextId ∧ u.email = email ∧
      u.password = L.bcrypt.hash R.random 10 R.salt ∧ u.role = "student" ∧
      resolveUser L R s failure email name =
        ⟨.redirect ("http://localhost:3000?token=" ++ issueToken L R u),
          ⟨(R.interference s).users ++ [u], (R.interference s).nextId + 1⟩,
          [.dbFind email,
           .dbCreate ⟨name, email, L.bcrypt.hash R.random 10 R.salt, "student"⟩,
           .jwtSign (tokenPayload u) (jwtKey R.env)]⟩ := by
  cases hc : (R.interference s).create
      ⟨name, email, L.bcrypt.hash R.random 10 R.salt, "student"⟩ with
  | error e =>
    simp [resolveUser, hfind, hc, Response.isRedirect] at hred
  | ok val =>
    obtain ⟨u, s2⟩ := val
    obtain ⟨_, hname, hid, hemail, hpw, hrole, husers, hnext⟩ :=
      Store.create_ok_inv (R.interference s) _ u s2 hc
    have hs2 : s2 = ⟨(R.interference s).users ++ [u], (R.interference s).nextId + 1⟩ := by
      cases s2
      simp only [Store.mk.injEq]
      exact ⟨husers, hnext⟩
    refine ⟨u, hname, hid, hemail, hpw, hrole, ?_⟩
    simp only [resolveUser, hfind, hc, hs2]

theorem resolveUser_store_effects (L : Libs) (R : Run) (s : Store) (failure email : String)
    (name : Option String) :
    (resolveUser L R s failure email name).log.head? = some (.dbFind email) ∧
    (∀ e, Effect.dbFind e ∈ (resolveUser L R s failure email name).log → e = email) ∧
    (∀ d, Effect.dbCreate d ∈ (resolveUser L R s failure email name).log → d.email = email) := by
  unfold resolveUser
  split
  · simp
  · dsimp only
    split <;> simp

theorem googleAuthCallback_resolved (L : Libs) (R : Run) (api : GoogleApi) (s : Store)
    (code : Option String) (c accessToken email : String) (profile : GoogleProfile)
    (hc : codeOf code = some c) (ht : api.token c = .ok accessToken)
    (hp : api.userinfo accessToken = .ok profile) (he : profile.email = some email) :
    googleAuthCallback L R api s code =
      resolveUser L R s "Google authentication failed" email profile.name := by
  simp only [googleAuthCallback, hc, ht, hp, he]

theorem githubAuthCallback_resolved (L : Libs) (R : Run) (api : GithubApi) (s : Store)
    (code : Option String) (c accessToken email : String) (userData : GithubUser)
    (emails : List EmailEntry)
    (hc : codeOf code = some c) (ht : api.accessToken c = .ok accessToken)
    (hu : api.user accessToken = .ok userData) (hl : api.emails accessToken = .ok emails)
    (he : primaryEmail emails = some email) (hne : email ≠ "") :
    githubAuthCallback L R api s code =
      resolveUser L R s "GitHub authentication failed" email (some (githubName userData)) := by
  have ht2 : truthy email = true := (truthy_iff email).mpr hne
  simp only [githubAuthCallback, hc, ht, hu, hl, he, ht2, if_true]

/-! ## Claims on the OAuth callbacks -/

/-- C5: in the GitHub callback, once the code exchange, the user request and the email
list request have answered: when no entry of the list is both primary and verified the
callback answers 400, touches the store not at all and signs nothing; every email the
callback looks up or inserts is the email of the first entry, in list order, that is
both primary and verified; and when that entry has an email the user is resolved by it. -/
theorem github_primary_verified_email (L : Libs) (R : Run) (api : GithubApi) (s : Store)
    (code : Option String) (c accessToken : String) (userData : GithubUser)
    (emails : List EmailEntry)
    (hc : codeOf code = some c) (ht : api.accessToken c = .ok accessToken)
    (hu : api.user accessToken = .ok userData) (hl : api.emails accessToken = .ok emails) :
    ((∀ x ∈ emails, ¬ (x.primary = true ∧ x.verified = true)) →
      githubAuthCallback L R api s code =
        ⟨.fail 400 "Email not found. Please ensure your GitHub email is public.", s, []⟩) ∧
    (∀ e, (Effect.dbFind e ∈ (githubAuthCallback L R api s code).log ∨
        ∃ d, Effect.dbCreate d ∈ (githubAuthCallback L R api s code).log ∧ d.email = e) →
      ∃ pre entry post, emails = pre ++ entry :: post ∧
        (∀ x ∈ pre, ¬ (x.primary = true ∧ x.verified = true)) ∧
        entry.primary = true ∧ entry.verified = true ∧ entry.email = e) ∧
    (∀ pre entry post, emails = pre ++ entry :: post →
      (∀ x ∈ pre, ¬ (x.primary = true ∧ x.verified = true)) →
      entry.primary = true → entry.verified = true → entry.email ≠ "" →
      githubAuthCallback L R api s code =
        resolveUser L R s "GitHub authentication failed" entry.email
          (some (githubName userData)) ∧
      (githubAuthCallback L R api s code).log.head? = some (.dbFind entry.email)) := by
  refine ⟨?_, ?_, ?_⟩
  · intro hnone
    have hfind : emails.find? (fun e => e.primary && e.verified) = none := by
      rw [List.find?_eq_none]
      intro x hx
      simpa using hnone x hx
    simp only [githubAuthCallback, hc, ht, hu, hl, primaryEmail, hfind, Option.map_none']
  · intro e hlog
    cases hfind : emails.find? (fun e => e.primary && e.verified) with
    | none =>
      exfalso
      simp only [githubAuthCallback, hc, ht, hu, hl, primaryEmail, hfind, Option.map_none',
        List.not_mem_nil, false_and, exists_false, or_false] at hlog
    | some entry =>
      have hprim : primaryEmail emails = some entry.email := by
        simp only [primaryEmail, hfind, Option.map_some']
      by_cases hne : entry.email = ""
      · exfalso
        have hfalsy : truthy entry.email = false := by simp [truthy, hne]
        simp [githubAuthCallback, hc, ht, hu, hl, hprim, hfalsy] at hlog
      · rw [githubAuthCallback_resolved L R api s code c accessToken entry.email userData
          emails hc ht hu hl hprim hne] at hlog
        obtain ⟨_, hf, hcr⟩ := resolveUser_store_effects L R s "GitHub authentication failed"
          entry.email (some (githubName userData))
        have he : e = entry.email := by
          rcases hlog with h | ⟨d, hd, hde⟩
          · exact hf e h
          · rw [← hde]
            exact hcr d hd
        obtain ⟨hp, pre, post, hsplit, hpre⟩ := List.find?_eq_some.mp hfind
        refine ⟨pre, entry, post, hsplit, ?_, ?_, ?_, he.symm⟩
        · intro x hx hxp
          have hx2 := hpre x hx
          simp [hxp.1, hxp.2] at hx2
        · simp only [Bool.and_eq_true] at hp
          exact hp.1
        · simp only [Bool.and_eq_true] at hp
          exact hp.2
  · intro pre entry post hsplit hpre hp hv hne
    have hfind : emails.find? (fun e => e.primary && e.verified) = some entry := by
      rw [List.find?_eq_some]
      refine ⟨by simp [hp, hv], pre, post, hsplit, ?_⟩
      intro x hx
      have hx2 := hpre x hx
      cases hp1 : x.primary <;> cases hv1 : x.verified <;> simp [hp1, hv1] at hx2 ⊢
    have hprim : primaryEmail emails = some entry.email := by
      simp only [primaryEmail, hfind, Option.map_some']
    rw [githubAuthCallback_resolved L R api s code c accessToken entry.email userData
      emails hc ht hu hl hprim hne]
    exact ⟨rfl, (resolveUser_store_effects L R s _ entry.email _).1⟩

/-- Witness for C5: an account with no primary verified email is refused before the
store is touched, and `sampleGithub` is resolved by its second entry. -/
theorem github_primary_verified_email_witness :
    githubAuthCallback refLibs quietRun unverifiedGithub emptyStore (some "code") =
      ⟨.fail 400 "Email not found. Please ensure your GitHub email is public.", emptyStore, []⟩ ∧
    (githubAuthCallback refLibs quietRun sampleGithub emptyStore (some "code")).log.head?
      = some (.dbFind "ann@example.org") :=
  ⟨(github_primary_verified_email refLibs quietRun unverifiedGithub emptyStore (some "code")
      "code" "access" ⟨none, "annhub"⟩
      [⟨"ann@example.org", true, false⟩, ⟨"old@example.org", false, true⟩]
      (by decide) rfl rfl rfl).1 (by decide),
   ((github_primary_verified_email refLibs quietRun sampleGithub emptyStore (some "code")
      "code" "access" ⟨none, "annhub"⟩ sampleEmails (by decide) rfl rfl rfl).2.2
      [⟨"old@example.org", false, true⟩] ⟨"ann@example.org", true, true⟩ [] rfl
      (by decide) rfl rfl (by decide)).2⟩

/-- C6: when the store already holds a user under the resolved profile email, the Google
callback and the GitHub callback succeed with a redirect, leave the store as it was
and insert nothing, and sign a token whose claims are that user's id and role (next to
the issue time and the expiry), whatever name the provider reports. -/
theorem oauth_existing_user_untouched (L : Libs) (R : Run) (s : Store) (u : User)
    (email : String) (hfind : s.findUnique email = some u) :
    (∀ (api : GoogleApi) (code : Option String) (c accessToken : String)
        (profile : GoogleProfile),
      codeOf code = some c → api.token c = .ok accessToken →
      api.userinfo accessToken = .ok profile → profile.email = some email →
      googleAuthCallback L R api s code =
        ⟨.redirect ("http://localhost:3000?token=" ++ issueToken L R u), s,
          [.dbFind email,
           .jwtSign [("userId", Claim.num u.id), ("role", Claim.str u.role)] (jwtKey R.env)]⟩) ∧
    (∀ (api : GithubApi) (code : Option String) (c accessToken : String)
        (userData : GithubUser) (emails : List EmailEntry),
      codeOf code = some c → api.accessToken c = .ok accessToken →
      api.user accessToken = .ok userData → api.emails accessToken = .ok emails →
      primaryEmail emails = some email → email ≠ "" →
      githubAuthCallback L R api s code =
        ⟨.redirect ("http://localhost:3000?token=" ++ issueToken L R u), s,
          [.dbFind email,
           .jwtSign [("userId", Claim.num u.id), ("role", Claim.str u.role)] (jwtKey R.env)]⟩) ∧
    (L.jwt.decode (issueToken L R u)).map Jws.payload =
      some [("userId", Claim.num u.id), ("role", Claim.str u.role), ("iat", Claim.num R.now),
        ("exp", Claim.num (R.now + 3600))] := by
  refine ⟨?_, ?_, decode_issueToken L R u⟩
  · intro api code c accessToken profile hc ht hp he
    rw [googleAuthCallback_resolved L R api s code c accessToken email profile hc ht hp he,
      resolveUser_of_present L R s _ email _ u hfind]
    rfl
  · intro api code c accessToken userData emails hc ht hu hl he hne
    rw [githubAuthCallback_resolved L R api s code c accessToken email userData emails
        hc ht hu hl he hne,
      resolveUser_of_present L R s _ email _ u hfind]
    rfl

/-- Witness for C6: both callbacks for Ann's email on the store that holds Ann; the
profiles report another name and Ann's row, a teacher, stays as it is. -/
theorem oauth_existing_user_untouched_witness :
    googleAuthCallback refLibs quietRun sampleGoogle annStore (some "code") =
      ⟨.redirect ("http://localhost:3000?token=" ++ issueToken refLibs quietRun annUser),
        annStore,
        [.dbFind "ann@example.org",
         .jwtSign [("userId", Claim.num 1), ("role", Claim.str "teacher")] "secret"]⟩ ∧
    githubAuthCallback refLibs quietRun sampleGithub annStore (some "code") =
      ⟨.redirect ("http://localhost:3000?token=" ++ issueToken refLibs quietRun annUser),
        annStore,
        [.dbFind "ann@example.org",
         .jwtSign [("userId", Claim.num 1), ("role", Claim.str "teacher")] "secret"]⟩ :=
  ⟨(oauth_existing_user_untouched refLibs quietRun annStore annUser "ann@example.org"
      (by decide)).1 sampleGoogle (some "code") "code" "access"
      ⟨some "Someone Else", some "ann@example.org"⟩ (by decide) rfl rfl rfl,
   (oauth_existing_user_untouched refLibs quietRun annStore annUser "ann@example.org"
      (by decide)).2.1 sampleGithub (some "code") "code" "access" ⟨none, "annhub"⟩
      sampleEmails (by decide) rfl rfl rfl (by decide) (by decide)⟩

/-- C10: when the store holds no user under the resolved profile email and the callback
succeeds with a redirect, the Google callback and the GitHub callback insert exactly one
row: the store at insertion time followed by the new user, whose email is the resolved
email, whose role is "student", whose password is the bcrypt hash (10 rounds) of the
random hex string drawn for this run, and whose name is the profile's display name, or
for GitHub the login name when the display name is missing or empty.  The redirect
carries a token whose payload holds the new user's id. -/
theorem oauth_new_user_created (L : Libs) (R : Run) (s : Store) (email : String)
    (hfind : s.findUnique email = none) :
    (∀ (api : GoogleApi) (code : Option String) (c accessToken : String)
        (profile : GoogleProfile),
      codeOf code = some c → api.token c = .ok accessToken →
      api.userinfo accessToken = .ok profile → profile.email = some email →
      (googleAuthCallback L R api s code).response.isRedirect = true →
      ∃ u, profile.name = some u.name ∧ u.id = (R.interference s).nextId ∧ u.email = email ∧
        u.password = L.bcrypt.hash R.random 10 R.salt ∧ u.role = "student" ∧
        googleAuthCallback L R api s code =
          ⟨.redirect ("http://localhost:3000?token=" ++ issueToken L R u),
            ⟨(R.interference s).users ++ [u], (R.interference s).nextId + 1⟩,
            [.dbFind email,
             .dbCreate ⟨profile.name, email, L.bcrypt.hash R.random 10 R.salt, "student"⟩,
             .jwtSign [("userId", Claim.num u.id), ("role", Claim.str u.role)]
               (jwtKey R.env)]⟩ ∧
        (L.jwt.decode (issueToken L R u)).map (fun t => t.payload.lookup "userId")
          = some (some (Claim.num u.id))) ∧
    (∀ (api : GithubApi) (code : Option String) (c accessToken : String)
        (userData : GithubUser) (emails : List EmailEntry),
      codeOf code = some c → api.accessToken c = .ok accessToken →
      api.user accessToken = .ok userData → api.emails accessToken = .ok emails →
      primaryEmail emails = some email → email ≠ "" →
      (githubAuthCallback L R api s code).response.isRedirect = true →
      ∃ u, (u.name = match userData.name with
              | some n => if n = "" then userData.login else n
              | none => userData.login) ∧
        u.id = (R.interference s).nextId ∧ u.email = email ∧
        u.password = L.bcrypt.hash R.random 10 R.salt ∧ u.role = "student" ∧
        githubAuthCallback L R api s code =
          ⟨.redirect ("http://localhost:3000?token=" ++ issueToken L R u),
            ⟨(R.interference s).users ++ [u], (R.interference s).nextId + 1⟩,
            [.dbFind email,
             .dbCreate ⟨some u.name, email, L.bcrypt.hash R.random 10 R.salt, "student"⟩,
             .jwtSign [("userId", Claim.num u.id), ("role", Claim.str u.role)]
               (jwtKey R.env)]⟩ ∧
        (L.jwt.decode (issueToken L R u)).map (fun t => t.payload.lookup "userId")
          = some (some (Claim.num u.id))) := by
  have hcarry : ∀ u : User,
      (L.jwt.decode (issueToken L R u)).map (fun t => t.payload.lookup "userId")
        = some (some (Claim.num u.id)) := by
    intro u
    simp [issueToken, JwtLib.sign, L.jwt.decode_encode, tokenPayload, List.lookup]
  constructor
  · intro api code c accessToken profile hc ht hp he hred
    rw [googleAuthCallback_resolved L R api s code c accessToken email profile hc ht hp he]
      at hred ⊢
    obtain ⟨u, hname, hid, hemail, hpw, hrole, hout⟩ :=
      resolveUser_of_absent L R s _ email profile.name hfind hred
    exact ⟨u, hname, hid, hemail, hpw, hrole, hout, hcarry u⟩
  · intro api code c accessToken userData emails hc ht hu hl he hne hred
    rw [githubAuthCallback_resolved L R api s code c accessToken email userData emails
      hc ht hu hl he hne] at hred ⊢
    obtain ⟨u, hname, hid, hemail, hpw, hrole, hout⟩ :=
      resolveUser_of_absent L R s _ email (some (githubName userData)) hfind hred
    have hn : githubName userData = u.name := Option.some.inj hname
    refine ⟨u, ?_, hid, hemail, hpw, hrole, ?_, hcarry u⟩
    · rw [← hn]
      unfold githubName
      cases userData.name with
      | none => rfl
      | some n =>
        by_cases hnn : n = ""
        · simp [truthy, hnn]
        · simp [truthy, hnn]
    · rw [← hn]
      exact hn ▸ hout

/-- Witness for C10: both callbacks for Ann's email on the empty store. -/
theorem oauth_new_user_created_witness :
    (∃ u : User, some "Someone Else" = some u.name ∧ u.id = 1 ∧ u.email = "ann@example.org" ∧
      u.password = "hashed:c0ffee" ∧ u.role = "student" ∧
      (googleAuthCallback refLibs quietRun sampleGoogle emptyStore (some "code")).store.users
        = [u]) ∧
    (∃ u : User, u.name = "annhub" ∧ u.id = 1 ∧ u.email = "ann@example.org" ∧
      u.password = "hashed:c0ffee" ∧ u.role = "student" ∧
      (githubAuthCallback refLibs quietRun sampleGithub emptyStore (some "code")).store.users
        = [u]) := by
  constructor
  · obtain ⟨u, h1, h2, h3, h4, h5, h6, _⟩ :=
      (oauth_new_user_created refLibs quietRun emptyStore "ann@example.org" (by decide)).1
        sampleGoogle (some "code") "code" "access" ⟨some "Someone Else", some "ann@example.org"⟩
        (by decide) rfl rfl rfl (by decide)
    exact ⟨u, h1, h2, h3, h4, h5, by rw [h6]; rfl⟩
  · obtain ⟨u, h1, h2, h3, h4, h5, h6, _⟩ :=
      (oauth_new_user_created refLibs quietRun emptyStore "ann@example.org" (by decide)).2
        sampleGithub (some "code") "code" "access" ⟨none, "annhub"⟩ sampleEmails
        (by decide) rfl rfl rfl (by decide) (by decide) (by decide)
    exact ⟨u, h1, h2, h3, h4, h5, by rw [h6]; rfl⟩

/-- C8: for a validated registration payload whose email is not in the store, neither at
the lookup nor at insertion time, and for every setting of `JWT_SECRET`, register answers
201 with a token; the middleware, reading the same environment at any time before the
token's expiry one hour after issue, accepts `Bearer <token>`, calls `next` and attaches
claims whose `userId` and `role` are the id and role of the created user; the payload
holds these two fields, the issue time and the expiry, and nothing else. -/
theorem register_token_round_trip (L : Libs) (R : Run) (s : Store) (body : RawBody)
    (d : RegisterData) (now : Nat)
    (h : registerSchema L.isEmail body = .ok d)
    (hfind : s.findUnique d.email = none)
    (hins : (R.interference s).findUnique d.email = none)
    (hlife : now < R.now + 3600) :
    ∃ u token,
      (register L R s body).response
        = .success 201 "User registered successfully" (publicUser u) token ∧
      u ∈ (register L R s body).store.users ∧
      u.email = d.email ∧ u.role = d.role ∧
      (L.jwt.decode token).map Jws.payload =
        some [("userId", Claim.num u.id), ("role", Claim.str u.role), ("iat", Claim.num R.now),
          ("exp", Claim.num (R.now + 3600))] ∧
      L.jwt.verify token (jwtKey R.env) now =
        .ok [("userId", Claim.num u.id), ("role", Claim.str u.role), ("iat", Claim.num R.now),
          ("exp", Claim.num (R.now + 3600))] ∧
      authMiddleware L.jwt R.env now (some ("Bearer " ++ token)) =
        ⟨none, true, some [("userId", Claim.num u.id), ("role", Claim.str u.role),
          ("iat", Claim.num R.now), ("exp", Claim.num (R.now + 3600))]⟩ := by
  have hcreate := Store.create_of_absent (R.interference s)
    ⟨some d.name, d.email, L.bcrypt.hash d.password 10 R.salt, d.role⟩ d.name rfl hins
  have hreg := register_of_created L R s body d _ _ h hfind hcreate
  refine ⟨⟨(R.interference s).nextId, d.name, d.email,
    L.bcrypt.hash d.password 10 R.salt, d.role⟩,
    issueToken L R ⟨(R.interference s).nextId, d.name, d.email,
      L.bcrypt.hash d.password 10 R.salt, d.role⟩, ?_, ?_, rfl, rfl, ?_, ?_, ?_⟩
  · rw [hreg]
  · rw [hreg]
    simp
  · exact decode_issueToken L R _
  · exact verify_issueToken L R _ now hlife
  · have hne : truthy (issueToken L R ⟨(R.interference s).nextId, d.name, d.email,
        L.bcrypt.hash d.password 10 R.salt, d.role⟩) = true :=
      (truthy_iff _).mpr (L.jwt.encode_nonempty _)
    simp only [authMiddleware, bearerToken_of_bearer, hne, if_true,
      verify_issueToken L R _ now hlife]

/-- Witness for C8: Ann registers in the empty store with no secret configured and the
token is presented half an hour later. -/
theorem register_token_round_trip_witness :
    ∃ u token,
      (register refLibs quietRun emptyStore annBody).response
        = .success 201 "User registered successfully" (publicUser u) token ∧
      u ∈ (register refLibs quietRun emptyStore annBody).store.users ∧
      u.email = "ann@example.org" ∧ u.role = "teacher" ∧
      (refJwt.decode token).map Jws.payload =
        some [("userId", Claim.num u.id), ("role", Claim.str u.role), ("iat", Claim.num 1000),
          ("exp", Claim.num (1000 + 3600))] ∧
      refJwt.verify token "secret" 2800 =
        .ok [("userId", Claim.num u.id), ("role", Claim.str u.role), ("iat", Claim.num 1000),
          ("exp", Claim.num (1000 + 3600))] ∧
      authMiddleware refJwt ⟨none⟩ 2800 (some ("Bearer " ++ token)) =
        ⟨none, true, some [("userId", Claim.num u.id), ("role", Claim.str u.role),
          ("iat", Claim.num 1000), ("exp", Claim.num (1000 + 3600))]⟩ :=
  register_token_round_trip refLibs quietRun emptyStore annBody annData 2800
    (by decide) (by decide) (by decide) (by decide)

/-- Witness for C9, amended: a body with a name and a malformed email fails at `email`. -/
theorem validation_first_failure_witness :
    ∃ i rest, [(⟨["email"], "Invalid email format"⟩ : Issue)] = i :: rest ∧ i.path = ["email"] ∧
      register refLibs quietRun emptyStore
        (.object [("name", .str "Ann"), ("email", .str "nope")])
        = ⟨.fail 400 i.message, emptyStore, []⟩ :=
  ((validation_first_failure refLibs quietRun emptyStore).2.2.2.1
    [("name", .str "Ann"), ("email", .str "nope")]).2.1 "Ann"
    [⟨["email"], "Invalid email format"⟩] (by decide) (by decide)

end VirtualClassroom
